import Mathlib

/-!
Verification of the field-selection and user-serialization logic of
`edx_solutions_api_integration/users/serializers.py`.

The serializers are shallowly embedded: Django/DRF records become Lean
structures, querysets become lists, and Python exceptions become an
`Except PyErr` result.  External collaborators (the `json.loads` parser,
the profile-image URL helper, the organization sub-serializer) are taken
as explicit function arguments, since their code is not part of this
repository.
-/

namespace ApiIntegration

/-- JSON-compatible Python values, used both for parsed
`grade_summary` blobs and for serializer output values. -/
inductive PyVal where
  | null : PyVal
  | bool (b : Bool) : PyVal
  | num (q : Rat) : PyVal
  | str (s : String) : PyVal
  | arr (xs : List PyVal) : PyVal
  | obj (fs : List (String × PyVal)) : PyVal
deriving Repr

/-- Python exceptions relevant to `serializers.py`. -/
inductive PyErr where
  | doesNotExist
  | multipleObjectsReturned
  | valueError
  | typeError
  | keyError
deriving Repr, DecidableEq

/-- The request object's query parameters, as read by
`DynamicFieldsModelSerializer.__init__`: `query_params.get('fields', None)`
and `query_params.get('additional_fields', "")`.  `none` models an absent
parameter. -/
structure Request where
  fields : Option String
  additional_fields : Option String

/-- The serializer context dictionary: optional `request`,
`default_fields` and `course_id` entries. -/
structure Ctx where
  request : Option Request
  default_fields : Option String
  course_id : Option String

/-- `profile` record: descriptive per-user attributes
(`city`, `title`, `country`, `name`, `profile_image_uploaded_at`).
Timestamps are kept opaque as strings. -/
structure Profile where
  city : Option String
  title : Option String
  country : Option String
  name : Option String
  profile_image_uploaded_at : Option String

/-- A `User` record together with its in-memory related data:
an optional `Profile` (zero or one), the related enrollment rows
(`courseenrollment_set`, kept as opaque course ids), the related
organization ids, and the optional precomputed `courses_enrolled`
attribute (`hasattr(user, 'courses_enrolled')`). -/
structure User where
  id : Int
  email : String
  username : String
  first_name : String
  last_name : String
  date_joined : String
  is_active : Bool
  is_staff : Bool
  last_login : Option String
  profile : Option Profile
  courseenrollment_set : List String
  organizations : List String
  courses_enrolled : Option Int

/-- A `CourseAccessRole` row: per-(user, course) role assignment. -/
structure AccessRole where
  user_id : Int
  course_id : String
  role : String

/-- A `StudentGradebook` row: per-(user, course) grades plus a serialized
breakdown blob (`grade_summary`). -/
structure Gradebook where
  user_id : Int
  course_id : String
  grade : Rat
  proforma_grade : Rat
  grade_summary : String

/-- External collaborators and database contents, passed explicitly:
`helper` is `get_profile_image_urls_by_username`, `orgSer` is
`BasicOrganizationSerializer(many=True)`, `jsonLoads` is `json.loads`
(`none` models a `ValueError`), `roles` and `gradebooks` are the
`CourseAccessRole` and `StudentGradebook` tables. -/
structure Env where
  helper : String → Option String → PyVal
  orgSer : List String → PyVal
  jsonLoads : String → Option PyVal
  roles : List AccessRole
  gradebooks : List Gradebook

/-! ## Dynamic field selection (`DynamicFieldsModelSerializer.__init__`) -/

/-- Split a character list at every occurrence of `sep`, keeping empty
pieces, as Python's `str.split` with an explicit separator does. -/
def splitChars (sep : Char) : List Char → List (List Char)
  | [] => [[]]
  | c :: cs =>
    if c = sep then [] :: splitChars sep cs
    else
      match splitChars sep cs with
      | [] => [[c]]
      | h :: t => (c :: h) :: t

/-- Python's `s.split(sep)` for a single-character separator: splits at
every separator occurrence and keeps empty pieces, so
`",".split(",") == ["", ""]` and `"".split(",") == [""]`.  No
whitespace trimming happens. -/
def pySplit (sep : Char) (s : String) : List String :=
  (splitChars sep s.data).map (fun cs => String.mk cs)

/-- The effective selection computed by
`DynamicFieldsModelSerializer.__init__`: `none` when no filtering
happens (no request in context, or the final `fields` value is falsy),
otherwise the result of `fields.split(',')`.

Python truthiness: a `fields` value of `None` or `""` is falsy, so the
`default_fields` fallback fires exactly when the `fields` query
parameter is absent or the empty string. -/
def effectiveFields (ctx : Ctx) : Option (List String) :=
  match ctx.request with
  | none => none
  | some qp =>
    let fields0 := qp.fields
    let fields1 : Option String :=
      if fields0.getD "" = "" then
        match ctx.default_fields with
        | some df => some (df ++ "," ++ qp.additional_fields.getD "")
        | none => fields0
      else fields0
    match fields1 with
    | none => none
    | some f => if f = "" then none else some (pySplit ',' f)

/-- The field names kept by `DynamicFieldsModelSerializer.__init__`:
every declared field not in the `allowed` set is popped, so the
surviving keys are the declared fields that occur in the split
selection, in declaration order. -/
def selectFields (declared : List String) (ctx : Ctx) : List String :=
  match effectiveFields ctx with
  | none => declared
  | some fs => declared.filter (fun d => fs.contains d)

/-! ## Python primitive operations used by `get_user_grades` -/

/-- Membership of `needle` in the string `hay`, Python's `in` on `str`. -/
def strContains (hay needle : String) : Bool :=
  (List.range (hay.data.length + 1)).any
    (fun i => needle.data.isPrefixOf (hay.data.drop i))

/-- Python's `key in v` on a parsed JSON value: key membership for a
dict, element membership for a list, substring test for a string, and
an uncaught `TypeError` for a number, boolean or `None`. -/
def pyContains (key : String) : PyVal → Except PyErr Bool
  | .obj fs => .ok (fs.any (fun p => p.1 == key))
  | .arr xs => .ok (xs.any (fun v => match v with | .str s => s == key | _ => false))
  | .str s => .ok (strContains s key)
  | _ => .error .typeError

/-- Python's `v[key]` on a parsed JSON value: dict lookup for a dict
(`KeyError` when absent), `TypeError` otherwise (a string subscript on a
list or string raises). -/
def pySubscript (key : String) : PyVal → Except PyErr PyVal
  | .obj fs =>
    match fs.find? (fun p => p.1 == key) with
    | some p => .ok p.2
    | none => .error .keyError
  | _ => .error .typeError

/-- `StudentGradebook.objects.get(user=user, course_id=course_id)`:
`DoesNotExist` on no match, `MultipleObjectsReturned` on more than one. -/
def gradebookGet (gradebooks : List Gradebook) (uid : Int) (cid : String) :
    Except PyErr Gradebook :=
  match gradebooks.filter (fun g => g.user_id == uid && g.course_id == cid) with
  | [] => .error .doesNotExist
  | [g] => .ok g
  | _ :: _ :: _ => .error .multipleObjectsReturned

/-! ## `UserSerializer` method fields -/

/-- The all-null grades mapping `get_user_grades` starts from. -/
def nullGrades : List (String × PyVal) :=
  [("grade", .null), ("proforma_grade", .null), ("section_breakdown", .null)]

/-- `UserSerializer.get_user_grades`.  The `try` block assigns `grade`
and `proforma_grade` before parsing `grade_summary`; the `except` clause
catches only `ObjectDoesNotExist` and `ValueError`, keeping whatever was
assigned so far, while a `MultipleObjectsReturned` from `.get` or a
`TypeError` from the membership test / subscript propagates. -/
def get_user_grades (env : Env) (ctx : Ctx) (u : User) :
    Except PyErr (List (String × PyVal)) :=
  match ctx.course_id with
  | none => .ok nullGrades
  | some cid =>
    match gradebookGet env.gradebooks u.id cid with
    | .error .doesNotExist => .ok nullGrades
    | .error e => .error e
    | .ok gb =>
      match env.jsonLoads gb.grade_summary with
      | none =>
        .ok [("grade", .num gb.grade), ("proforma_grade", .num gb.proforma_grade),
             ("section_breakdown", .null)]
      | some gs =>
        match pyContains "section_breakdown" gs with
        | .error e => .error e
        | .ok false =>
          .ok [("grade", .num gb.grade), ("proforma_grade", .num gb.proforma_grade),
               ("section_breakdown", .null)]
        | .ok true =>
          match pySubscript "section_breakdown" gs with
          | .error e => .error e
          | .ok sb =>
            .ok [("grade", .num gb.grade), ("proforma_grade", .num gb.proforma_grade),
                 ("section_breakdown", sb)]

/-- `UserSerializer.get_user_roles`: filter `CourseAccessRole` by user,
narrow by `course_id` when present in context, return the distinct role
names. -/
def get_user_roles (env : Env) (ctx : Ctx) (u : User) : List String :=
  let qs := env.roles.filter (fun r => r.user_id == u.id)
  let qs :=
    match ctx.course_id with
    | none => qs
    | some cid => qs.filter (fun r => r.course_id == cid)
  (qs.map (fun r => r.role)).dedup

/-- `UserSerializer.get_courses_enrolled`: the precomputed attribute when
attached, otherwise `user.courseenrollment_set.all().count()`. -/
def get_courses_enrolled (u : User) : Int :=
  match u.courses_enrolled with
  | some n => n
  | none => (u.courseenrollment_set.length : Int)

/-- `UserSerializer.get_profile_image`: the upload timestamp is read
from the profile, with a missing profile (`ObjectDoesNotExist`) degraded
to `None`, and the external helper is called with it. -/
def get_profile_image (env : Env) (u : User) : PyVal :=
  env.helper u.username (u.profile.bind (fun p => p.profile_image_uploaded_at))

/-! ## `UserSerializer` output assembly -/

/-- Render an optional string as a JSON value. -/
def optStr : Option String → PyVal
  | none => .null
  | some s => .str s

/-- The declared field tuple of `UserSerializer.Meta`. -/
def userFields : List String :=
  ["id", "email", "username", "first_name", "last_name", "created",
   "is_active", "profile_image", "city", "title", "country", "full_name",
   "is_staff", "last_login", "courses_enrolled", "organizations", "roles",
   "grades"]

/-- The declared field tuple of `SimpleUserSerializer.Meta`. -/
def simpleUserFields : List String :=
  ["id", "email", "username", "first_name", "last_name", "created", "is_active"]

/-- The value `UserSerializer` emits for one declared field.

Modelled from the spec: the framework attribute traversal for
dotted-source fields (`profile.city` etc.) is not part of this
repository; per the spec, lookups that find no matching related record
are treated as no data and represented as null fields, never propagated
as request failures.  All other fields follow the source methods. -/
def userFieldValue (env : Env) (ctx : Ctx) (u : User) :
    String → Except PyErr PyVal
  | "id" => .ok (.num u.id)
  | "email" => .ok (.str u.email)
  | "username" => .ok (.str u.username)
  | "first_name" => .ok (.str u.first_name)
  | "last_name" => .ok (.str u.last_name)
  | "created" => .ok (.str u.date_joined)
  | "is_active" => .ok (.bool u.is_active)
  | "profile_image" => .ok (get_profile_image env u)
  | "city" => .ok (optStr (u.profile.bind (fun p => p.city)))
  | "title" => .ok (optStr (u.profile.bind (fun p => p.title)))
  | "country" => .ok (optStr (u.profile.bind (fun p => p.country)))
  | "full_name" => .ok (optStr (u.profile.bind (fun p => p.name)))
  | "is_staff" => .ok (.bool u.is_staff)
  | "last_login" => .ok (optStr u.last_login)
  | "courses_enrolled" => .ok (.num (get_courses_enrolled u))
  | "grades" => (get_user_grades env ctx u).map .obj
  | "organizations" => .ok (env.orgSer u.organizations)
  | "roles" => .ok (.arr ((get_user_roles env ctx u).map .str))
  | _ => .ok .null

/-- Build the output mapping field by field, in declaration order,
stopping at the first field whose extraction raises. -/
def buildRep (fv : String → Except PyErr PyVal) :
    List String → Except PyErr (List (String × PyVal))
  | [] => .ok []
  | f :: fs =>
    match fv f with
    | .error e => .error e
    | .ok v =>
      match buildRep fv fs with
      | .error e => .error e
      | .ok rest => .ok ((f, v) :: rest)

/-- `UserSerializer.to_representation`: the selected declared fields,
each paired with its extracted value. -/
def to_representation (env : Env) (ctx : Ctx) (u : User) :
    Except PyErr (List (String × PyVal)) :=
  buildRep (userFieldValue env ctx u) (selectFields userFields ctx)

/-! ## Sample data for concrete evaluations -/

/-- A user with no `Profile` row, two enrollments, and no precomputed
enrollment count. -/
def alice : User :=
  ⟨7, "alice@example.com", "alice", "Alice", "A", "2015-01-01", true, false,
   none, none, ["course-1", "course-2"], [], none⟩

/-- A gradebook row whose `grade_summary` blob is the source of parsing
scenarios. -/
def gbRow : Gradebook := ⟨7, "course-1", 1/2, 3/4, "not json"⟩

/-- An environment with trivial external collaborators and empty tables. -/
def envNull : Env := ⟨fun _ _ => .null, fun _ => .arr [], fun _ => none, [], []⟩

/-- A small `CourseAccessRole` table. -/
def rolesDb : List AccessRole :=
  [⟨7, "course-1", "staff"⟩, ⟨7, "course-2", "staff"⟩,
   ⟨7, "course-2", "assistant"⟩, ⟨8, "course-1", "instructor"⟩]

/-- An environment whose stored breakdown blob fails to parse
(`json.loads` raises `ValueError`). -/
def envBadJson : Env :=
  ⟨fun _ _ => .null, fun _ => .arr [], fun _ => none, [], [gbRow]⟩

/-- An environment whose stored breakdown blob parses to an object
without a `section_breakdown` key. -/
def envNoKey : Env :=
  ⟨fun _ _ => .null, fun _ => .arr [], fun _ => some (.obj [("x", .null)]),
   [], [gbRow]⟩

/-- An environment whose stored breakdown blob parses to a bare number,
on which Python's `in` operator raises `TypeError`. -/
def envNumJson : Env :=
  ⟨fun _ _ => .null, fun _ => .arr [], fun _ => some (.num 5), [], [gbRow]⟩

/-- An environment whose profile-image helper returns a non-null URL
record. -/
def envImg : Env :=
  ⟨fun _ _ => .str "http-img", fun _ => .arr [], fun _ => none, [], []⟩

/-- No selection is supplied at all: no request in context, or the
`fields` query parameter and the `default_fields` context entry are both
absent. -/
def noSelection (ctx : Ctx) : Prop :=
  ctx.request = none ∨
    ∃ qp, ctx.request = some qp ∧ qp.fields = none ∧ ctx.default_fields = none

/-! ## Helper lemmas -/

theorem effectiveFields_eq_none {ctx : Ctx} (h : noSelection ctx) :
    effectiveFields ctx = none := by
  rcases h with h | ⟨qp, hq, hf, hd⟩
  · simp [effectiveFields, h]
  · simp [effectiveFields, hq, hf, hd]

theorem selectFields_subset {declared : List String} {ctx : Ctx} {f : String}
    (h : f ∈ selectFields declared ctx) : f ∈ declared := by
  unfold selectFields at h
  cases he : effectiveFields ctx with
  | none => rw [he] at h; exact h
  | some fs => rw [he] at h; exact List.mem_of_mem_filter h

theorem selectFields_of_noSelection {declared : List String} {ctx : Ctx}
    (h : noSelection ctx) : selectFields declared ctx = declared := by
  unfold selectFields
  rw [effectiveFields_eq_none h]

theorem buildRep_keys {fv : String → Except PyErr PyVal} :
    ∀ {l : List String} {m : List (String × PyVal)},
      buildRep fv l = .ok m → m.map Prod.fst = l := by
  intro l
  induction l with
  | nil =>
    intro m hm
    simp only [buildRep] at hm
    cases hm
    rfl
  | cons f fs ih =>
    intro m hm
    unfold buildRep at hm
    cases hf : fv f with
    | error e => rw [hf] at hm; cases hm
    | ok v =>
      rw [hf] at hm
      cases hrest : buildRep fv fs with
      | error e => rw [hrest] at hm; cases hm
      | ok rest =>
        rw [hrest] at hm
        cases hm
        simp [ih hrest]

theorem buildRep_mem {fv : String → Except PyErr PyVal} :
    ∀ {l : List String} {m : List (String × PyVal)},
      buildRep fv l = .ok m → ∀ {f v}, (f, v) ∈ m → fv f = .ok v := by
  intro l
  induction l with
  | nil =>
    intro m hm f v hfv
    simp only [buildRep] at hm
    cases hm
    simp at hfv
  | cons g gs ih =>
    intro m hm f v hfv
    unfold buildRep at hm
    cases hg : fv g with
    | error e => rw [hg] at hm; cases hm
    | ok w =>
      rw [hg] at hm
      cases hrest : buildRep fv gs with
      | error e => rw [hrest] at hm; cases hm
      | ok rest =>
        rw [hrest] at hm
        cases hm
        rcases List.mem_cons.mp hfv with heq | hmem
        · obtain ⟨h1, h2⟩ := Prod.mk.injEq .. ▸ heq
          subst h1; subst h2; exact hg
        · exact ih hrest hmem

theorem buildRep_ok_of_forall {fv : String → Except PyErr PyVal} :
    ∀ {l : List String}, (∀ f ∈ l, ∃ v, fv f = .ok v) →
      ∃ m, buildRep fv l = .ok m := by
  intro l
  induction l with
  | nil => exact fun _ => ⟨[], rfl⟩
  | cons f fs ih =>
    intro h
    obtain ⟨v, hv⟩ := h f (by simp)
    obtain ⟨m, hm⟩ := ih (fun x hx => h x (by simp [hx]))
    exact ⟨(f, v) :: m, by simp [buildRep, hv, hm]⟩

/-! ## Claims -/

/-- C1: for every selection input, the key set of the serializer's
output mapping is a subset of the declared field set, and when no
selection is supplied at all (no `fields` parameter and no
`default_fields` context entry, or no request in context) the output
key set equals the full declared field set; likewise for the field
selection applied to any declared field list. -/
theorem c1_output_keys_subset_declared (env : Env) (ctx : Ctx) (u : User)
    (m : List (String × PyVal)) (h : to_representation env ctx u = .ok m) :
    (∀ f, f ∈ m.map Prod.fst → f ∈ userFields) ∧
    (noSelection ctx → m.map Prod.fst = userFields) ∧
    (∀ declared : List String,
      (∀ f, f ∈ selectFields declared ctx → f ∈ declared) ∧
      (noSelection ctx → selectFields declared ctx = declared)) := by
  have hk : m.map Prod.fst = selectFields userFields ctx := buildRep_keys h
  refine ⟨?_, ?_, ?_⟩
  · intro f hf
    rw [hk] at hf
    exact selectFields_subset hf
  · intro hn
    rw [hk]
    exact selectFields_of_noSelection hn
  · intro declared
    exact ⟨fun f hf => selectFields_subset hf,
           fun hn => selectFields_of_noSelection hn⟩

/-- C8: for every supplied selection, requested names outside the
declared field set are silently ignored (they never appear in the
output and the computation is total), while declared fields named in
the selection are kept. -/
theorem c8_unknown_names_ignored (declared : List String) (ctx : Ctx)
    (sel : List String) (h : effectiveFields ctx = some sel) :
    (∀ x, x ∉ declared → x ∉ selectFields declared ctx) ∧
    (∀ d, d ∈ declared → d ∈ sel → d ∈ selectFields declared ctx) := by
  constructor
  · intro x hx hmem
    exact hx (selectFields_subset hmem)
  · intro d hd hsel
    unfold selectFields
    rw [h]
    refine List.mem_filter.mpr ⟨hd, ?_⟩
    simpa using hsel

/-- C10: the selection string is split on commas with no whitespace
trimming; when the `fields` parameter is absent or empty and
`default_fields` is present, the effective selection is the comma-join
of `default_fields` and `additional_fields`; when both of those are
empty the joined value is the string containing one comma, whose split
allows only the empty name, so every declared field is dropped. -/
theorem c10_comma_join_fallback (ctx : Ctx) (qp : Request)
    (hq : ctx.request = some qp) :
    (∀ s, qp.fields = some s → s ≠ "" →
      effectiveFields ctx = some (pySplit ',' s)) ∧
    (∀ df, (qp.fields = none ∨ qp.fields = some "") →
      ctx.default_fields = some df →
      effectiveFields ctx =
        some (pySplit ',' (df ++ "," ++ qp.additional_fields.getD ""))) ∧
    ((qp.fields = none ∨ qp.fields = some "") →
      ctx.default_fields = some "" → qp.additional_fields.getD "" = "" →
      ∀ declared : List String, "" ∉ declared →
        selectFields declared ctx = []) := by
  have hjoin_ne : ∀ df af : String, (df ++ "," ++ af) ≠ "" := by
    intro df af h0
    have := congrArg String.data h0
    simp [String.data_append] at this
  have hfallback : ∀ df, (qp.fields = none ∨ qp.fields = some "") →
      ctx.default_fields = some df →
      effectiveFields ctx =
        some (pySplit ',' (df ++ "," ++ qp.additional_fields.getD "")) := by
    intro df hf hd
    rcases hf with hf | hf <;>
      simp [effectiveFields, hq, hf, hd, hjoin_ne df (qp.additional_fields.getD "")]
  refine ⟨?_, hfallback, ?_⟩
  · intro s hf hs
    simp [effectiveFields, hq, hf, hs]
  · intro hf hd ha declared hne
    have heff := hfallback "" hf hd
    rw [ha] at heff
    unfold selectFields
    rw [heff]
    rw [List.filter_eq_nil_iff]
    intro d hd1 hcon
    have hd2 : d = "" := by
      simpa [List.contains, pySplit, splitChars] using hcon
    exact hne (hd2 ▸ hd1)

/-- C6: `get_user_roles` returns a duplicate-free list whose members
are exactly the role names of the user's `CourseAccessRole` rows, over
all courses when no `course_id` is in context and over the matching
course only when one is. -/
theorem c6_user_roles_distinct (env : Env) (ctx : Ctx) (u : User) :
    (get_user_roles env ctx u).Nodup ∧
    (ctx.course_id = none →
      ∀ s, s ∈ get_user_roles env ctx u ↔
        ∃ r, r ∈ env.roles ∧ r.user_id = u.id ∧ r.role = s) ∧
    (∀ cid, ctx.course_id = some cid →
      ∀ s, s ∈ get_user_roles env ctx u ↔
        ∃ r, r ∈ env.roles ∧ r.user_id = u.id ∧ r.course_id = cid ∧
          r.role = s) := by
  refine ⟨?_, ?_, ?_⟩
  · unfold get_user_roles
    cases ctx.course_id <;> exact List.nodup_dedup _
  · intro hc s
    unfold get_user_roles
    rw [hc]
    simp only [List.mem_dedup, List.mem_map, List.mem_filter, beq_iff_eq]
    constructor
    · rintro ⟨r, ⟨hr, hu⟩, hs⟩
      exact ⟨r, hr, hu, hs⟩
    · rintro ⟨r, hr, hu, hs⟩
      exact ⟨r, ⟨hr, hu⟩, hs⟩
  · intro cid hc s
    unfold get_user_roles
    rw [hc]
    simp only [List.mem_dedup, List.mem_map, List.mem_filter, beq_iff_eq]
    constructor
    · rintro ⟨r, ⟨⟨hr, hu⟩, hcid⟩, hs⟩
      exact ⟨r, hr, hu, hcid, hs⟩
    · rintro ⟨r, hr, hu, hcid, hs⟩
      exact ⟨r, ⟨⟨hr, hu⟩, hcid⟩, hs⟩

/-- C7: `get_courses_enrolled` returns the precomputed attribute when
it is attached to the in-memory record, and otherwise the count of the
user's related enrollment rows. -/
theorem c7_courses_enrolled (u : User) :
    (∀ n, u.courses_enrolled = some n → get_courses_enrolled u = n) ∧
    (u.courses_enrolled = none →
      get_courses_enrolled u = (u.courseenrollment_set.length : Int)) := by
  constructor
  · intro n hn
    unfold get_courses_enrolled
    rw [hn]
  · intro hn
    unfold get_courses_enrolled
    rw [hn]

/-- C4: with a course context but no gradebook row for the
(user, course) pair, `get_user_grades` returns exactly the all-null
grades mapping and raises nothing. -/
theorem c4_no_row_all_null (env : Env) (ctx : Ctx) (u : User) (cid : String)
    (hc : ctx.course_id = some cid)
    (hnone : ∀ g ∈ env.gradebooks, ¬(g.user_id = u.id ∧ g.course_id = cid)) :
    get_user_grades env ctx u = .ok nullGrades := by
  have hfil : env.gradebooks.filter
      (fun g => g.user_id == u.id && g.course_id == cid) = [] := by
    rw [List.filter_eq_nil_iff]
    intro g hg
    simp only [Bool.and_eq_true, beq_iff_eq, not_and]
    intro h1 h2
    exact hnone g hg ⟨h1, h2⟩
  simp [get_user_grades, gradebookGet, hc, hfil]

/-- C5: with a course context, a matching gradebook row, and a breakdown
blob that parses to an object without a `section_breakdown` key,
`get_user_grades` populates `grade` and `proforma_grade` from the row
and leaves `section_breakdown` null. -/
theorem c5_summary_without_key (env : Env) (ctx : Ctx) (u : User)
    (cid : String) (gb : Gradebook) (fs : List (String × PyVal))
    (hc : ctx.course_id = some cid)
    (hget : gradebookGet env.gradebooks u.id cid = .ok gb)
    (hparse : env.jsonLoads gb.grade_summary = some (.obj fs))
    (hno : ∀ p ∈ fs, p.1 ≠ "section_breakdown") :
    get_user_grades env ctx u =
      .ok [("grade", .num gb.grade), ("proforma_grade", .num gb.proforma_grade),
           ("section_breakdown", .null)] := by
  have hany : fs.any (fun p => p.1 == "section_breakdown") = false := by
    rw [List.any_eq_false]
    intro p hp
    simp [hno p hp]
  simp [get_user_grades, hc, hget, hparse, pyContains, hany]

/-- C3 counterexample: a gradebook row whose breakdown blob fails to
parse does not yield null for all grade fields — `grade` and
`proforma_grade` had already been assigned from the row before the
parse, so they come back populated. -/
theorem c3_counterexample :
    get_user_grades envBadJson ⟨none, none, some "course-1"⟩ alice =
      .ok [("grade", .num (1/2)), ("proforma_grade", .num (3/4)),
           ("section_breakdown", .null)] ∧
    PyVal.num (1/2) ≠ PyVal.null :=
  ⟨rfl, fun h => PyVal.noConfusion h⟩

/-- C3 amended: with a course context and a matching gradebook row whose
breakdown blob fails to parse, `get_user_grades` returns `grade` and
`proforma_grade` populated from the row, `section_breakdown` null, and
raises nothing. -/
theorem c3_amended_malformed_json (env : Env) (ctx : Ctx) (u : User)
    (cid : String) (gb : Gradebook)
    (hc : ctx.course_id = some cid)
    (hget : gradebookGet env.gradebooks u.id cid = .ok gb)
    (hbad : env.jsonLoads gb.grade_summary = none) :
    get_user_grades env ctx u =
      .ok [("grade", .num gb.grade), ("proforma_grade", .num gb.proforma_grade),
           ("section_breakdown", .null)] := by
  simp [get_user_grades, hc, hget, hbad]

/-- C9 counterexample: `get_user_grades` does not always return a
mapping — a breakdown blob that parses to a bare number makes the
membership test raise an uncaught `TypeError`. -/
theorem c9_counterexample :
    get_user_grades envNumJson ⟨none, none, some "course-1"⟩ alice =
      .error .typeError := rfl

/-- C9 amended: whenever `get_user_grades` returns normally, the mapping
has exactly the keys `grade`, `proforma_grade` and `section_breakdown`;
with no `course_id` in context it always returns with all three null. -/
theorem c9_amended_three_keys (env : Env) (ctx : Ctx) (u : User) :
    (∀ m, get_user_grades env ctx u = .ok m →
      m.map Prod.fst = ["grade", "proforma_grade", "section_breakdown"]) ∧
    (ctx.course_id = none → get_user_grades env ctx u = .ok nullGrades) := by
  constructor
  · intro m hm
    unfold get_user_grades at hm
    split at hm
    · cases hm; rfl
    · split at hm
      · cases hm; rfl
      · cases hm
      · split at hm
        · cases hm; rfl
        · split at hm
          · cases hm
          · cases hm; rfl
          · split at hm
            · cases hm
            · cases hm; rfl
  · intro hc
    simp [get_user_grades, hc]

theorem userFieldValue_isOk (env : Env) (ctx : Ctx) (u : User)
    (hg : ∃ g, get_user_grades env ctx u = .ok g) (f : String) :
    ∃ v, userFieldValue env ctx u f = .ok v := by
  obtain ⟨g, hgr⟩ := hg
  unfold userFieldValue
  split <;> simp [hgr, Except.map]

/-- C2 counterexample: for a user with no profile, the `profile_image`
output field is not null — it is whatever the external helper returns
for the username and a null upload timestamp. -/
theorem c2_counterexample :
    alice.profile = none ∧
    ((to_representation envImg ⟨none, none, none⟩ alice).toOption.bind
      (fun m => m.lookup "profile_image")) = some (.str "http-img") ∧
    PyVal.str "http-img" ≠ PyVal.null :=
  ⟨rfl, rfl, fun h => PyVal.noConfusion h⟩

/-- C2 amended: for a user with no profile, whenever the grades lookup
itself returns normally, serialization returns normally with null
`city`, `title`, `country` and `full_name`, and with `profile_image`
equal to the external helper's value for the username and a null upload
timestamp. -/
theorem c2_amended_no_profile (env : Env) (ctx : Ctx) (u : User)
    (hp : u.profile = none)
    (hg : ∃ g, get_user_grades env ctx u = .ok g) :
    ∃ m, to_representation env ctx u = .ok m ∧
      (∀ v, ("city", v) ∈ m → v = PyVal.null) ∧
      (∀ v, ("title", v) ∈ m → v = PyVal.null) ∧
      (∀ v, ("country", v) ∈ m → v = PyVal.null) ∧
      (∀ v, ("full_name", v) ∈ m → v = PyVal.null) ∧
      (∀ v, ("profile_image", v) ∈ m → v = env.helper u.username none) := by
  obtain ⟨m, hm⟩ :=
    buildRep_ok_of_forall (fun f _ => userFieldValue_isOk env ctx u hg f)
  refine ⟨m, hm, ?_, ?_, ?_, ?_, ?_⟩
  · intro v hv
    have h2 := buildRep_mem hm hv
    have h3 : userFieldValue env ctx u "city" =
        .ok (optStr (u.profile.bind (fun p => p.city))) := rfl
    rw [h3, hp] at h2
    simpa [optStr] using h2.symm
  · intro v hv
    have h2 := buildRep_mem hm hv
    have h3 : userFieldValue env ctx u "title" =
        .ok (optStr (u.profile.bind (fun p => p.title))) := rfl
    rw [h3, hp] at h2
    simpa [optStr] using h2.symm
  · intro v hv
    have h2 := buildRep_mem hm hv
    have h3 : userFieldValue env ctx u "country" =
        .ok (optStr (u.profile.bind (fun p => p.country))) := rfl
    rw [h3, hp] at h2
    simpa [optStr] using h2.symm
  · intro v hv
    have h2 := buildRep_mem hm hv
    have h3 : userFieldValue env ctx u "full_name" =
        .ok (optStr (u.profile.bind (fun p => p.name))) := rfl
    rw [h3, hp] at h2
    simpa [optStr] using h2.symm
  · intro v hv
    have h2 := buildRep_mem hm hv
    have h3 : userFieldValue env ctx u "profile_image" =
        .ok (get_profile_image env u) := rfl
    rw [h3] at h2
    have h4 : get_profile_image env u = env.helper u.username none := by
      unfold get_profile_image
      rw [hp]
      rfl
    rw [h4] at h2
    exact (Except.ok.inj h2).symm

/-! ## Witnesses -/

/-- The full representation of `alice` under `envNull` with an empty
context. -/
def aliceFullRep : List (String × PyVal) :=
  [("id", .num 7), ("email", .str "alice@example.com"),
   ("username", .str "alice"), ("first_name", .str "Alice"),
   ("last_name", .str "A"), ("created", .str "2015-01-01"),
   ("is_active", .bool true), ("profile_image", .null), ("city", .null),
   ("title", .null), ("country", .null), ("full_name", .null),
   ("is_staff", .bool false), ("last_login", .null),
   ("courses_enrolled", .num 2), ("organizations", .arr []),
   ("roles", .arr []),
   ("grades", .obj [("grade", .null), ("proforma_grade", .null),
                    ("section_breakdown", .null)])]

theorem c1_witness :
    to_representation envNull ⟨none, none, none⟩ alice = .ok aliceFullRep ∧
    (∀ f, f ∈ aliceFullRep.map Prod.fst → f ∈ userFields) ∧
    aliceFullRep.map Prod.fst = userFields := by
  have h := c1_output_keys_subset_declared envNull ⟨none, none, none⟩ alice
    aliceFullRep rfl
  exact ⟨rfl, h.1, h.2.1 (Or.inl rfl)⟩

theorem c2_witness :
    alice.profile = none ∧
    (∃ g, get_user_grades envNull ⟨none, none, none⟩ alice = .ok g) ∧
    (∃ m, to_representation envNull ⟨none, none, none⟩ alice = .ok m ∧
      (∀ v, ("city", v) ∈ m → v = PyVal.null) ∧
      (∀ v, ("title", v) ∈ m → v = PyVal.null) ∧
      (∀ v, ("country", v) ∈ m → v = PyVal.null) ∧
      (∀ v, ("full_name", v) ∈ m → v = PyVal.null) ∧
      (∀ v, ("profile_image", v) ∈ m →
        v = envNull.helper alice.username none)) :=
  ⟨rfl, ⟨nullGrades, rfl⟩,
   c2_amended_no_profile envNull ⟨none, none, none⟩ alice rfl ⟨nullGrades, rfl⟩⟩

theorem c3_witness :
    get_user_grades envBadJson ⟨none, none, some "course-1"⟩ alice =
      .ok [("grade", .num gbRow.grade),
           ("proforma_grade", .num gbRow.proforma_grade),
           ("section_breakdown", .null)] :=
  c3_amended_malformed_json envBadJson ⟨none, none, some "course-1"⟩ alice
    "course-1" gbRow rfl rfl rfl

theorem c4_witness :
    get_user_grades envNull ⟨none, none, some "course-1"⟩ alice =
      .ok nullGrades :=
  c4_no_row_all_null envNull ⟨none, none, some "course-1"⟩ alice "course-1"
    rfl (by intro g hg; simp [envNull] at hg)

theorem c5_witness :
    get_user_grades envNoKey ⟨none, none, some "course-1"⟩ alice =
      .ok [("grade", .num gbRow.grade),
           ("proforma_grade", .num gbRow.proforma_grade),
           ("section_breakdown", .null)] :=
  c5_summary_without_key envNoKey ⟨none, none, some "course-1"⟩ alice
    "course-1" gbRow [("x", PyVal.null)] rfl rfl rfl
    (by intro p hp; simp at hp; simp [hp])

theorem c6_witness :
    (get_user_roles { envNull with roles := rolesDb } ⟨none, none, none⟩
      alice).Nodup ∧
    ("staff" ∈ get_user_roles { envNull with roles := rolesDb }
        ⟨none, none, none⟩ alice ↔
      ∃ r, r ∈ rolesDb ∧ r.user_id = alice.id ∧ r.role = "staff") := by
  have h := c6_user_roles_distinct { envNull with roles := rolesDb }
    ⟨none, none, none⟩ alice
  exact ⟨h.1, h.2.1 rfl "staff"⟩

theorem c7_witness :
    alice.courses_enrolled = none ∧ get_courses_enrolled alice = 2 := by
  refine ⟨rfl, ?_⟩
  have h := (c7_courses_enrolled alice).2 rfl
  exact h.trans rfl

theorem c8_witness :
    effectiveFields ⟨some ⟨some "city,bogus", none⟩, none, none⟩ =
      some ["city", "bogus"] ∧
    "bogus" ∉ selectFields userFields
      ⟨some ⟨some "city,bogus", none⟩, none, none⟩ ∧
    "city" ∈ selectFields userFields
      ⟨some ⟨some "city,bogus", none⟩, none, none⟩ := by
  have h := c8_unknown_names_ignored userFields
    ⟨some ⟨some "city,bogus", none⟩, none, none⟩ ["city", "bogus"] rfl
  exact ⟨rfl, h.1 "bogus" (by decide), h.2 "city" (by decide) (by decide)⟩

theorem c9_witness :
    get_user_grades envNull ⟨none, none, none⟩ alice = .ok nullGrades ∧
    nullGrades.map Prod.fst = ["grade", "proforma_grade", "section_breakdown"] := by
  have h := c9_amended_three_keys envNull ⟨none, none, none⟩ alice
  exact ⟨h.2 rfl, h.1 nullGrades (h.2 rfl)⟩

theorem c10_witness :
    ("" : String) ∉ userFields ∧
    selectFields userFields ⟨some ⟨none, none⟩, some "", none⟩ = [] := by
  refine ⟨by decide, ?_⟩
  exact (c10_comma_join_fallback ⟨some ⟨none, none⟩, some "", none⟩
    ⟨none, none⟩ rfl).2.2 (Or.inl rfl) rfl rfl userFields (by decide)

end ApiIntegration
